import Mathlib

/-!
Shallow embedding of the obscurity scoring and statistics engine of the
`obscuriboxd` backend (`backend/calculator.py`), together with proofs
settling the specification claims about it.

Conventions of the embedding:
* Python `int` is `Int`, Python `float` is `Rat` (the scoring arithmetic of
  the source only uses `+ - * / round int() min max` on values that start
  rational, so exact rational arithmetic models it; the two floating-point
  power operations `x ** 0.7`, `x ** 0.85`, `x ** 0.8` have no exact
  rational meaning and are abstracted by an explicit function parameter
  `fpow` threaded through the definitions — no claim depends on its value).
* A Python value that may be `None` is an `Option`; Python truthiness of a
  number is `≠ 0`, of a list `≠ []`, of a string `≠ ""`, of `None` `False`.
* Python dicts built in insertion order are association lists in the same
  order.
-/

/-- The film record consumed by the calculator (`FilmRecord` of the spec,
a plain dict in the source; every field optional). -/
structure Film where
  title : Option String := none
  year : Option Int := none
  letterboxd_watches : Option Int := none
  popularity : Option Rat := none
  vote_count : Option Int := none
  genres : List String := []
  production_countries : List String := []
  director : Option String := none
  user_rating : Option Rat := none
  poster_path : Option String := none
deriving Repr, DecidableEq

/-- Round a rational to the nearest integer, ties to even — the rounding
mode of Python's builtin `round`. -/
def roundHalfEven (x : Rat) : Int :=
  let f := x.floor
  let r := x - f
  if r < 1/2 then f
  else if 1/2 < r then f + 1
  else if f % 2 = 0 then f else f + 1

/-- Python `round(x, d)`: round to `d` decimal places, ties to even. -/
def pyRound (x : Rat) (d : Nat) : Rat :=
  (roundHalfEven (x * (10 : Rat) ^ d) : Rat) / (10 : Rat) ^ d

/-- Python `int(x)` on a float: truncation toward zero. -/
def pyInt (x : Rat) : Int :=
  if 0 ≤ x then x.floor else x.ceil

/-- Control points `(watches, score)` of `SCORE_CURVE` in
`backend/calculator.py`, in source order (decreasing watches). -/
def SCORE_CURVE : List (Int × Rat) := [
  (5000000, 5),
  (3500000, 10),
  (2500000, 18),
  (2000000, 25),
  (1500000, 33),
  (1200000, 39),
  (1000000, 45),
  (800000, 51),
  (600000, 56),
  (450000, 61),
  (300000, 67),
  (200000, 72),
  (100000, 78),
  (50000, 84),
  (25000, 89),
  (10000, 94),
  (5000, 97),
  (1000, 99)]

/-- The bracket-search loop of `calculate_obscurity_from_watches`
(lines 67-75): scan adjacent control-point pairs, and on the first pair
`(upper, lower)` with `lower.1 ≤ watches ≤ upper.1` return the linear
interpolation of the two scores; `none` when no pair brackets `watches`. -/
def curveLoop : List (Int × Rat) → Int → Option Rat
  | (upper : Int × Rat) :: (lower : Int × Rat) :: rest, watches =>
    if lower.1 ≤ watches ∧ watches ≤ upper.1 then
      some (upper.2 + ((upper.1 - watches : Int) : Rat) / ((upper.1 - lower.1 : Int) : Rat) * (lower.2 - upper.2))
    else curveLoop (lower :: rest) watches
  | _, _ => none

/-- `calculate_obscurity_from_watches` (the spec's `curve_score`):
piecewise linear interpolation over `SCORE_CURVE`, with 100 for
non-positive input, clamping at both table ends, and a trailing default
of 50 when the loop finds no bracket. -/
def calculate_obscurity_from_watches (watches : Int) : Rat :=
  if watches ≤ 0 then 100
  else if (SCORE_CURVE.headD (0, 50)).1 ≤ watches then (SCORE_CURVE.headD (0, 50)).2
  else if watches ≤ (SCORE_CURVE.getLastD (0, 50)).1 then (SCORE_CURVE.getLastD (0, 50)).2
  else (curveLoop SCORE_CURVE watches).getD 50

/-- Truthiness of the optional `poster_path` field (`film.get('poster_path')`):
present and a non-empty string. -/
def posterTruthy (film : Film) : Prop :=
  match film.poster_path with
  | some s => s ≠ ""
  | none => False

instance (film : Film) : Decidable (posterTruthy film) := by
  unfold posterTruthy; exact match film.poster_path with
  | some s => inferInstanceAs (Decidable (s ≠ ""))
  | none => inferInstanceAs (Decidable False)

/-- Lines 93-132 of `get_film_obscurity`: the secondary-signal chain run
when the `letterboxd_watches` block falls through (TMDb popularity, then
vote count, then metadata-only, then nothing).  `fpow x e` stands for the
Python float power `x ** e`. -/
def get_film_obscurity_secondary (fpow : Rat → Rat → Rat) (film : Film) : Rat × String :=
  let tmdb_vote_count : Int := film.vote_count.getD 0
  let viaVotes : Rat × String :=
    if tmdb_vote_count ≠ 0 ∧ 100 < tmdb_vote_count then
      (calculate_obscurity_from_watches (pyInt (50 * fpow (tmdb_vote_count : Rat) (4/5))), "tmdb_votes")
    else if posterTruthy film ∨ film.genres ≠ [] then
      (75, "tmdb_no_pop")
    else
      (100, "none")
  match film.popularity with
  | some tmdb_pop =>
    if tmdb_pop ≠ 0 ∧ 0 < tmdb_pop then
      if 5 < tmdb_pop then
        let estimated_watches : Int :=
          if 50 < tmdb_pop then pyInt (1000000 * fpow (tmdb_pop / 100) (7/10))
          else pyInt (30000 * fpow tmdb_pop (17/20))
        (calculate_obscurity_from_watches estimated_watches, "tmdb")
      else
        (92, "tmdb_low")
    else viaVotes
  | none => viaVotes

/-- `get_film_obscurity` (the spec's `resolve_film_obscurity`): obscurity
score and source tag for one film.  The source tag string `letterboxd` is
the spec's `primary_watchcount`. -/
def get_film_obscurity (fpow : Rat → Rat → Rat) (film : Film) : Rat × String :=
  match film.letterboxd_watches with
  | some lb_watches =>
    if lb_watches = 0 then (100, "letterboxd")
    else if 0 < lb_watches then (calculate_obscurity_from_watches lb_watches, "letterboxd")
    else get_film_obscurity_secondary fpow film
  | none => get_film_obscurity_secondary fpow film

/-- `calculate_diversity_bonus`: up to +3 for non-anglophone and pre-1980
films. -/
def calculate_diversity_bonus (films : List Film) : Rat :=
  if films = [] then 0
  else
    let n : Nat := films.length
    let non_anglophone : Nat := (films.filter (fun f =>
      decide (f.production_countries ≠ [] ∧
        ¬ (["United States of America", "USA", "United Kingdom", "UK"].any
            (fun c => c ∈ f.production_countries))))).length
    let bonus1 : Rat := min (3/2) ((non_anglophone : Rat) / (n : Rat) * 3)
    let classic_films : Nat := (films.filter (fun f =>
      match f.year with
      | some y => decide (y ≠ 0 ∧ y < 1980)
      | none => false)).length
    let bonus2 : Rat := min (3/2) ((classic_films : Rat) / (n : Rat) * 3)
    min 3 (bonus1 + bonus2)

/-- The list comprehension of line 286,
`[f.get('letterboxd_watches') for f in films if f.get('letterboxd_watches')]`:
the truthy watch counts — present, non-null and nonzero. -/
def truthyWatchCounts (films : List Film) : List Int :=
  films.filterMap (fun f =>
    match f.letterboxd_watches with
    | some w => if w ≠ 0 then some w else none
    | none => none)

/-- The per-film score list of the fallback path (line 307). -/
def filmScores (fpow : Rat → Rat → Rat) (films : List Film) : List Rat :=
  films.map (fun f => (get_film_obscurity fpow f).1)

/-- The median computation of lines 290-295: sort ascending; for an even
count the floor-average of the two middle elements (Python `//`), for an
odd count the middle element. -/
def pyMedianInt (l : List Int) : Int :=
  let sorted := List.insertionSort (fun a b : Int => a ≤ b) l
  let n := sorted.length
  if n % 2 = 0 then Int.fdiv (sorted.getD (n / 2 - 1) 0 + sorted.getD (n / 2) 0) 2
  else sorted.getD (n / 2) 0

/-- `calculate_obscurity_score` (the spec's `aggregate_score`): overall
score plus the median watch count.  The second component models the
Python return value, which is an integer on every path (never `None`);
it is wrapped in `Option` because the spec describes this slot as
nullable. -/
def calculate_obscurity_score (fpow : Rat → Rat → Rat) (films : List Film) : Rat × Option Int :=
  if films = [] then (50, some 0)
  else
    let lb_watches := truthyWatchCounts films
    if lb_watches ≠ [] ∧ 3 ≤ lb_watches.length then
      let median_watches := pyMedianInt lb_watches
      let base_score := calculate_obscurity_from_watches median_watches
      let bonus := calculate_diversity_bonus films
      (max 0 (min 100 (base_score + bonus)), some median_watches)
    else
      let film_scores := filmScores fpow films
      if film_scores ≠ [] then
        let sorted := List.insertionSort (fun a b : Rat => a ≤ b) film_scores
        let median_score := sorted.getD (sorted.length / 2) 0
        let bonus := calculate_diversity_bonus films
        (max 0 (min 100 (median_score + bonus)), some 0)
      else (50, some 0)

/-- The genre→mood table of `calculate_mood_analysis`. -/
def mood_mapping : List (String × List String) := [
  ("Dark & Intense", ["Horror", "Thriller", "Crime", "War", "Mystery"]),
  ("Fun & Light", ["Comedy", "Animation", "Family", "Music"]),
  ("Emotional & Deep", ["Drama", "Romance", "History"]),
  ("Adventurous", ["Action", "Adventure", "Science Fiction", "Fantasy", "Western"]),
  ("Thought-Provoking", ["Documentary", "Mystery", "Science Fiction"])]

/-- Inner loop of `calculate_mood_analysis` for one genre: bump every mood
whose list contains the genre, and the global total once per match.  The
mood counters are modelled as a function from mood name to count (the
Python dict `mood_counts`). -/
def moodGenreStep (acc : (String → Nat) × Nat) (genre : String) : (String → Nat) × Nat :=
  mood_mapping.foldl (fun acc2 p =>
    if genre ∈ p.2 then
      (fun m => if m = p.1 then acc2.1 m + 1 else acc2.1 m, acc2.2 + 1)
    else acc2) acc

/-- The counting loops of `calculate_mood_analysis` over all films and all
their genres. -/
def moodLoop (films : List Film) : (String → Nat) × Nat :=
  films.foldl (fun acc f => f.genres.foldl moodGenreStep acc) (fun _ => 0, 0)

/-- `calculate_mood_analysis`: mood name to percentage (1 decimal), all
zeros when no genre matched any mood. -/
def calculate_mood_analysis (films : List Film) : List (String × Rat) :=
  let r := moodLoop films
  if 0 < r.2 then
    mood_mapping.map (fun p => (p.1, pyRound ((r.1 p.1 : Rat) / (r.2 : Rat) * 100) 1))
  else
    mood_mapping.map (fun p => (p.1, 0))

/-- Bump the counter of `k` in an insertion-ordered association list, the
behaviour of a Python `Counter`/dict update. -/
def bumpCount {α : Type} [DecidableEq α] (k : α) : List (α × Nat) → List (α × Nat)
  | [] => [(k, 1)]
  | (k', c) :: rest => if k' = k then (k', c + 1) :: rest else (k', c) :: bumpCount k rest

/-- Count every element occurrence of every sublist, in encounter order
(a Python `Counter` fed by repeated `update` calls). -/
def counterOf {α : Type} [DecidableEq α] (ls : List (List α)) : List (α × Nat) :=
  ls.foldl (fun acc l => l.foldl (fun a k => bumpCount k a) acc) []

/-- `Counter.most_common(n)`: stable sort by count descending, first `n`. -/
def most_common {α : Type} (n : Nat) (counts : List (α × Nat)) : List (α × Nat) :=
  (List.insertionSort (fun a b : α × Nat => b.2 ≤ a.2) counts).take n

/-- Decade label of a year, Python `f"{(year // 10) * 10}s"`. -/
def decadeLabel (year : Int) : String :=
  toString (Int.fdiv year 10 * 10) ++ "s"

/-- Python truthiness of the optional `year` field. -/
def yearTruthy (film : Film) : Option Int :=
  match film.year with
  | some y => if y ≠ 0 then some y else none
  | none => none

/-- Summary dict used in the `most_obscure_films` / `most_mainstream_films`
lists of `calculate_obscurity_stats`. -/
structure FilmSummary where
  title : Option String
  year : Option Int
  watches : Option Int
  popularity : Option Rat
  director : Option String
  poster_path : Option String
deriving Repr, DecidableEq

/-- The `popularity` entry of the summary dicts:
`round(f.get('popularity', 0), 1) if f.get('popularity') else None`. -/
def summaryPopularity (film : Film) : Option Rat :=
  match film.popularity with
  | some p => if p ≠ 0 then some (pyRound p 1) else none
  | none => none

/-- Build the summary dict of one film. -/
def filmSummary (film : Film) : FilmSummary :=
  { title := film.title, year := film.year, watches := film.letterboxd_watches,
    popularity := summaryPopularity film, director := film.director,
    poster_path := film.poster_path }

/-- Entry of the `films_by_decade` lists: the summary dict plus the film's
rounded obscurity score. -/
structure DecadeFilm where
  title : Option String
  year : Option Int
  watches : Option Int
  popularity : Option Rat
  director : Option String
  poster_path : Option String
  obscurity_score : Rat
deriving Repr, DecidableEq

/-- Append a film to its decade bucket, keeping the dict's insertion order
of decade keys. -/
def addDecadeFilm (d : String) (x : DecadeFilm) : List (String × List DecadeFilm) → List (String × List DecadeFilm)
  | [] => [(d, [x])]
  | (d', xs) :: rest => if d' = d then (d', xs ++ [x]) :: rest else (d', xs) :: addDecadeFilm d x rest

/-- The result dict of `calculate_obscurity_stats` (the spec's
`UserObscurityReport`).  `films_by_decade` is an `Option` because the
empty-input path of the source returns a dict without that key; `none`
models the absent key.  The `rating_distribution` keys are kept as the
numeric rating values (the source stringifies them with `str` and sorts
the strings; the counts are unaffected). -/
structure Report where
  username : String
  obscurity_score : Rat
  total_films : Nat
  average_rating : Option Rat
  median_watches : Option Int
  top_genres : List (String × Nat)
  decade_breakdown : List (String × Nat)
  country_breakdown : List (String × Nat)
  most_obscure_films : List FilmSummary
  most_mainstream_films : List FilmSummary
  director_counts : List (String × Nat)
  rating_distribution : List (Rat × Nat)
  mood_analysis : List (String × Rat)
  films_by_decade : Option (List (String × List DecadeFilm))
deriving Repr, DecidableEq

/-- `calculate_obscurity_stats` (the spec's `build_report`): the full
analytics bundle. -/
def calculate_obscurity_stats (fpow : Rat → Rat → Rat) (films : List Film) (username : String) : Report :=
  if films = [] then
    { username := username, obscurity_score := 0, total_films := 0,
      average_rating := none, median_watches := none, top_genres := [],
      decade_breakdown := [], country_breakdown := [], most_obscure_films := [],
      most_mainstream_films := [], director_counts := [],
      rating_distribution := [], mood_analysis := [], films_by_decade := none }
  else
    let scorePair := calculate_obscurity_score fpow films
    let genre_counts := counterOf (films.map (fun f => f.genres))
    let top_genres := most_common 10 genre_counts
    let decade_counts := counterOf (films.map (fun f =>
      match yearTruthy f with
      | some y => [decadeLabel y]
      | none => []))
    let decade_breakdown :=
      List.insertionSort (fun a b : String × Nat => a.1 ≤ b.1) decade_counts
    let country_counts := counterOf (films.map (fun f => f.production_countries))
    let country_breakdown := most_common 10 country_counts
    let director_counts := counterOf (films.map (fun f =>
      match f.director with
      | some d => if d ≠ "" then [d] else []
      | none => []))
    let top_directors := most_common 10 director_counts
    let ratings := films.filterMap (fun f => f.user_rating)
    let rating_counts := counterOf (films.map (fun f =>
      match f.user_rating with
      | some r => [r]
      | none => []))
    let average_rating : Option Rat :=
      if ratings ≠ [] then some (ratings.sum / (ratings.length : Rat)) else none
    let films_with_scores := films.map (fun f => (f, get_film_obscurity fpow f))
    let ranked := List.insertionSort
      (fun a b : Film × (Rat × String) => b.2.1 ≤ a.2.1) films_with_scores
    let most_obscure := (ranked.take 5).map (fun x => filmSummary x.1)
    let most_mainstream :=
      ((ranked.drop (ranked.length - 5)).reverse).map (fun x => filmSummary x.1)
    let mood_analysis := calculate_mood_analysis films
    let films_by_decade := films.foldl (fun acc f =>
      match yearTruthy f with
      | some y =>
        let score := (get_film_obscurity fpow f).1
        addDecadeFilm (decadeLabel y)
          { title := f.title, year := f.year, watches := f.letterboxd_watches,
            popularity := summaryPopularity f, director := f.director,
            poster_path := f.poster_path, obscurity_score := pyRound score 1 } acc
      | none => acc) []
    let films_by_decade := films_by_decade.map (fun p =>
      (p.1, (List.insertionSort
        (fun a b : DecadeFilm => b.obscurity_score ≤ a.obscurity_score) p.2).take 5))
    { username := username,
      obscurity_score := pyRound scorePair.1 1,
      total_films := films.length,
      average_rating :=
        match average_rating with
        | some a => if a ≠ 0 then some (pyRound a 2) else none
        | none => none,
      median_watches := scorePair.2,
      top_genres := top_genres,
      decade_breakdown := decade_breakdown,
      country_breakdown := country_breakdown,
      most_obscure_films := most_obscure,
      most_mainstream_films := most_mainstream,
      director_counts := top_directors,
      rating_distribution := List.insertionSort (fun a b : Rat × Nat => a.1 ≤ b.1) rating_counts,
      mood_analysis := mood_analysis,
      films_by_decade := some films_by_decade }

/-! ### Spec-side definitions and concrete inputs used by the claims -/

/-- Modelled from the spec (§4.3), for comparison with the code: the list
of all present, non-null `watch_count` values of the films — zeros
included. -/
def specPresentWatchCounts (films : List Film) : List Int :=
  films.filterMap (fun f => f.letterboxd_watches)

/-- Modelled from the spec (§4.3), for comparison with the code: the
median of a list of integers — sort ascending; for an even count the
floor of the average of the two middle values, for an odd count the
middle value. -/
def specMedianInt (l : List Int) : Int :=
  let sorted := List.insertionSort (fun a b : Int => a ≤ b) l
  let n := sorted.length
  if n % 2 = 0 then Int.fdiv (sorted.getD (n / 2 - 1) 0 + sorted.getD (n / 2) 0) 2
  else sorted.getD (n / 2) 0

/-- Modelled from the spec (§4.3 fallback path), for comparison with the
code: the median of a list of scores — sort ascending; for an even count
the floor of the average of the two middle sorted values, for an odd
count the middle value. -/
def specMedianScores (l : List Rat) : Rat :=
  let sorted := List.insertionSort (fun a b : Rat => a ≤ b) l
  let n := sorted.length
  if n % 2 = 0 then (Int.floor ((sorted.getD (n / 2 - 1) 0 + sorted.getD (n / 2) 0) / 2) : Rat)
  else sorted.getD (n / 2) 0

/-- A placeholder interpretation of the abstracted Python float power,
used only to instantiate counterexamples and witnesses at inputs whose
evaluation never reaches a power operation. -/
def pow0 : Rat → Rat → Rat := fun _ _ => 0

/-- A film with every field absent. -/
def emptyFilm : Film := {}

/-- A film carrying only a watch count. -/
def filmW (w : Int) : Film := { letterboxd_watches := some w }

/-- A film carrying only a user rating. -/
def filmR (r : Rat) : Film := { user_rating := some r }

/-- Concrete input refuting C1: one zero watch count among three nonzero
ones.  With the zero counted (as the claim says) the median of
`[0, 1000, 5000000, 5000000]` is `2500500`; the code drops the zero and
takes the median of `[1000, 5000000, 5000000]`, which is `5000000`. -/
def exC1 : List Film := [filmW 0, filmW 1000, filmW 5000000, filmW 5000000]

/-- Concrete input for the amended C1 and its witness. -/
def exW1 : List Film := [filmW 1, filmW 2, filmW 3]

/-- Concrete input refuting C4: two films on the fallback path with
distinct scores 45 and 100, so the two even-count median conventions
disagree (72 floor-averaged vs 100 upper-middle). -/
def exC4 : List Film := [filmW 1000000, emptyFilm]

/-- Number of moods whose genre list contains `g` (how many times one
(film, genre) pair bumps the global mood total). -/
def moodMatches (g : String) : Nat :=
  (mood_mapping.filter (fun p => decide (g ∈ p.2))).length

/-- Declarative count of the claim C9: (film, genre) pairs across all
films whose genre lies in the list `gs`. -/
def moodPairCount (films : List Film) (gs : List String) : Nat :=
  ((films.flatMap (fun f => f.genres)).filter (fun g => decide (g ∈ gs))).length

/-- Declarative global mood total of the claim C9: every (film, genre)
pair contributes once per mood whose list contains the genre. -/
def moodTotal (films : List Film) : Nat :=
  ((films.flatMap (fun f => f.genres)).map moodMatches).sum

/-! ### Properties of the popularity curve -/

/-- Sortedness of a control-point table: strictly decreasing watch
thresholds, strictly increasing scores. -/
def CurveSorted (l : List (Int × Rat)) : Prop :=
  List.Pairwise (fun p q => q.1 < p.1 ∧ p.2 < q.2) l

theorem scurve_sorted : CurveSorted SCORE_CURVE := by
  unfold CurveSorted SCORE_CURVE; decide

theorem curveLoop_none_of_lt (l : List (Int × Rat)) (w : Int)
    (h : ∀ p ∈ l, p.1 < w) : curveLoop l w = none := by
  induction l with
  | nil => rfl
  | cons u rest ih =>
    cases rest with
    | nil => rfl
    | cons v rest2 =>
      have hu : u.1 < w := h u (List.mem_cons_self _ _)
      have hcond : ¬ (v.1 ≤ w ∧ w ≤ u.1) := by omega
      simp only [curveLoop, if_neg hcond]
      exact ih (fun p hp => h p (List.mem_cons_of_mem _ hp))

theorem curveLoop_isSome (u : Int × Rat) (rest : List (Int × Rat)) (w : Int)
    (hne : rest ≠ [])
    (hlow : ((u :: rest).getLastD (0, 50)).1 ≤ w) (hhigh : w ≤ u.1) :
    (curveLoop (u :: rest) w).isSome = true := by
  induction rest generalizing u with
  | nil => exact absurd rfl hne
  | cons v rest2 ih =>
    by_cases hc : v.1 ≤ w ∧ w ≤ u.1
    · simp only [curveLoop, if_pos hc, Option.isSome_some]
    · have hlt : w < v.1 := by
        rcases not_and_or.mp hc with h1 | h2
        · omega
        · omega
      cases rest2 with
      | nil => simp only [List.getLastD_cons, List.getLastD_nil] at hlow; omega
      | cons t rest3 =>
        simp only [curveLoop, if_neg hc]
        apply ih v (by simp)
        · simpa only [List.getLastD_cons] using hlow
        · omega

theorem curveSorted_head_le_getLastD (u : Int × Rat) (rest : List (Int × Rat))
    (hs : CurveSorted (u :: rest)) :
    u.2 ≤ ((u :: rest).getLastD (0, 50)).2 := by
  induction rest generalizing u with
  | nil => simp [List.getLastD]
  | cons v rest2 ih =>
    have h2 := List.pairwise_cons.mp hs
    have huv := h2.1 v (List.mem_cons_self _ _)
    have hv := ih v h2.2
    simp only [List.getLastD_cons] at hv ⊢
    exact le_trans (le_of_lt huv.2) hv

theorem curveLoop_bounds (u : Int × Rat) (rest : List (Int × Rat)) (w : Int) (s : Rat)
    (hs : CurveSorted (u :: rest)) (h : curveLoop (u :: rest) w = some s) :
    u.2 ≤ s ∧ s ≤ ((u :: rest).getLastD (0, 50)).2 := by
  induction rest generalizing u with
  | nil => simp [curveLoop] at h
  | cons v rest2 ih =>
    have hp := List.pairwise_cons.mp hs
    have huv := hp.1 v (List.mem_cons_self _ _)
    by_cases hc : v.1 ≤ w ∧ w ≤ u.1
    · simp only [curveLoop, if_pos hc, Option.some_inj] at h
      have hB : (0 : Rat) < ((u.1 - v.1 : Int) : Rat) := by
        have : (0 : Int) < u.1 - v.1 := by omega
        exact_mod_cast this
      have hA : (0 : Rat) ≤ ((u.1 - w : Int) : Rat) := by
        have : (0 : Int) ≤ u.1 - w := by omega
        exact_mod_cast this
      have hAB : ((u.1 - w : Int) : Rat) ≤ ((u.1 - v.1 : Int) : Rat) := by
        have : (u.1 - w : Int) ≤ u.1 - v.1 := by omega
        exact_mod_cast this
      have hd : (0 : Rat) ≤ v.2 - u.2 := by linarith [huv.2]
      have hlow2 : u.2 ≤ s := by
        have := mul_nonneg (div_nonneg hA hB.le) hd
        linarith [h]
      have hup : s ≤ v.2 := by
        have hr1 : ((u.1 - w : Int) : Rat) / ((u.1 - v.1 : Int) : Rat) ≤ 1 :=
          (div_le_one hB).mpr hAB
        have := mul_le_mul_of_nonneg_right hr1 hd
        have hsv : s ≤ u.2 + 1 * (v.2 - u.2) := by rw [← h] at *; linarith
        linarith
      refine ⟨hlow2, le_trans hup ?_⟩
      have := curveSorted_head_le_getLastD v rest2 hp.2
      simpa only [List.getLastD_cons] using this
    · simp only [curveLoop, if_neg hc] at h
      have hb := ih v hp.2 h
      constructor
      · exact le_trans (le_of_lt huv.2) hb.1
      · simpa only [List.getLastD_cons] using hb.2

theorem curveLoop_anti (u : Int × Rat) (rest : List (Int × Rat)) (a b : Int) (sa sb : Rat)
    (hs : CurveSorted (u :: rest)) (hab : a ≤ b)
    (ha : curveLoop (u :: rest) a = some sa) (hb : curveLoop (u :: rest) b = some sb) :
    sb ≤ sa := by
  induction rest generalizing u with
  | nil => simp [curveLoop] at ha
  | cons v rest2 ih =>
    have hp := List.pairwise_cons.mp hs
    have huv := hp.1 v (List.mem_cons_self _ _)
    have hB : (0 : Rat) < ((u.1 - v.1 : Int) : Rat) := by
      have : (0 : Int) < u.1 - v.1 := by omega
      exact_mod_cast this
    have hd : (0 : Rat) ≤ v.2 - u.2 := by linarith [huv.2]
    by_cases hca : v.1 ≤ a ∧ a ≤ u.1
    · by_cases hcb : v.1 ≤ b ∧ b ≤ u.1
      · simp only [curveLoop, if_pos hca, Option.some_inj] at ha
        simp only [curveLoop, if_pos hcb, Option.some_inj] at hb
        have hnum : ((u.1 - b : Int) : Rat) ≤ ((u.1 - a : Int) : Rat) := by
          have : (u.1 - b : Int) ≤ u.1 - a := by omega
          exact_mod_cast this
        have hdiv : ((u.1 - b : Int) : Rat) / ((u.1 - v.1 : Int) : Rat) ≤
            ((u.1 - a : Int) : Rat) / ((u.1 - v.1 : Int) : Rat) :=
          (div_le_div_iff_of_pos_right hB).mpr hnum
        have := mul_le_mul_of_nonneg_right hdiv hd
        rw [← ha, ← hb]
        linarith
      · have hbu : u.1 < b := by
          rcases not_and_or.mp hcb with h1 | h2
          · omega
          · omega
        have hnone : curveLoop (v :: rest2) b = none := by
          apply curveLoop_none_of_lt
          intro p hp2
          rcases List.mem_cons.mp hp2 with rfl | hmem
          · omega
          · have := (List.pairwise_cons.mp hp.2).1 p hmem
            omega
        simp only [curveLoop, if_neg hcb, hnone] at hb
        exact Option.noConfusion hb
    · by_cases hcb : v.1 ≤ b ∧ b ≤ u.1
      · simp only [curveLoop, if_neg hca] at ha
        simp only [curveLoop, if_pos hcb, Option.some_inj] at hb
        have hbound := curveLoop_bounds v rest2 a sa hp.2 ha
        have hA : (0 : Rat) ≤ ((u.1 - b : Int) : Rat) := by
          have : (0 : Int) ≤ u.1 - b := by omega
          exact_mod_cast this
        have hAB : ((u.1 - b : Int) : Rat) ≤ ((u.1 - v.1 : Int) : Rat) := by
          have : (u.1 - b : Int) ≤ u.1 - v.1 := by omega
          exact_mod_cast this
        have hr1 : ((u.1 - b : Int) : Rat) / ((u.1 - v.1 : Int) : Rat) ≤ 1 :=
          (div_le_one hB).mpr hAB
        have := mul_le_mul_of_nonneg_right hr1 hd
        have hsb : sb ≤ v.2 := by rw [← hb]; linarith
        exact le_trans hsb hbound.1
      · simp only [curveLoop, if_neg hca] at ha
        simp only [curveLoop, if_neg hcb] at hb
        exact ih v hp.2 ha hb

theorem scurve_isSome (w : Int) (h1 : 1000 ≤ w) (h2 : w ≤ 5000000) :
    (curveLoop SCORE_CURVE w).isSome = true :=
  curveLoop_isSome (5000000, 5) SCORE_CURVE.tail w (by simp [SCORE_CURVE]) h1 h2

theorem scurve_bounds (w : Int) (s : Rat) (h : curveLoop SCORE_CURVE w = some s) :
    5 ≤ s ∧ s ≤ 99 :=
  curveLoop_bounds (5000000, 5) SCORE_CURVE.tail w s scurve_sorted h

theorem scurve_anti (a b : Int) (sa sb : Rat) (hab : a ≤ b)
    (ha : curveLoop SCORE_CURVE a = some sa) (hb : curveLoop SCORE_CURVE b = some sb) :
    sb ≤ sa :=
  curveLoop_anti (5000000, 5) SCORE_CURVE.tail a b sa sb scurve_sorted hab ha hb

theorem curve_nonpos (w : Int) (h : w ≤ 0) :
    calculate_obscurity_from_watches w = 100 := by
  unfold calculate_obscurity_from_watches
  rw [if_pos h]

theorem curve_high (w : Int) (h : 5000000 ≤ w) :
    calculate_obscurity_from_watches w = 5 := by
  unfold calculate_obscurity_from_watches
  rw [if_neg (by omega : ¬ w ≤ 0),
    if_pos (show (SCORE_CURVE.headD (0, 50)).1 ≤ w from h)]
  rfl

theorem curve_low (w : Int) (h1 : 0 < w) (h2 : w ≤ 1000) :
    calculate_obscurity_from_watches w = 99 := by
  unfold calculate_obscurity_from_watches
  rw [if_neg (by omega : ¬ w ≤ 0)]
  rw [if_neg (show ¬ (SCORE_CURVE.headD (0, 50)).1 ≤ w from by
    show ¬ (5000000 : Int) ≤ w; omega)]
  rw [if_pos (show w ≤ (SCORE_CURVE.getLastD (0, 50)).1 from h2)]
  rfl

theorem curve_mid (w : Int) (h1 : 1000 < w) (h2 : w < 5000000) :
    calculate_obscurity_from_watches w = (curveLoop SCORE_CURVE w).getD 50 ∧
      (curveLoop SCORE_CURVE w).isSome = true := by
  constructor
  · unfold calculate_obscurity_from_watches
    rw [if_neg (by omega : ¬ w ≤ 0)]
    rw [if_neg (show ¬ (SCORE_CURVE.headD (0, 50)).1 ≤ w from by
      show ¬ (5000000 : Int) ≤ w; omega)]
    rw [if_neg (show ¬ w ≤ (SCORE_CURVE.getLastD (0, 50)).1 from by
      show ¬ w ≤ (1000 : Int); omega)]
  · exact scurve_isSome w (by omega) (by omega)

theorem curve_score_monotone (a b : Int) (ha : 0 < a) (hab : a < b) :
    calculate_obscurity_from_watches b ≤ calculate_obscurity_from_watches a := by
  rcases le_or_lt 5000000 a with h5a | h5a
  · rw [curve_high a h5a, curve_high b (by omega)]
  · rcases le_or_lt a 1000 with h1a | h1a
    · rw [curve_low a ha h1a]
      rcases le_or_lt 5000000 b with h5b | h5b
      · rw [curve_high b h5b]; norm_num
      · rcases le_or_lt b 1000 with h1b | h1b
        · rw [curve_low b (by omega) h1b]
        · obtain ⟨heq, hsome⟩ := curve_mid b h1b h5b
          obtain ⟨s, hs⟩ := Option.isSome_iff_exists.mp hsome
          rw [heq, hs, Option.getD_some]
          exact le_trans (scurve_bounds b s hs).2 (by norm_num)
    · obtain ⟨heqa, hsomea⟩ := curve_mid a h1a h5a
      obtain ⟨sa, hsa⟩ := Option.isSome_iff_exists.mp hsomea
      rcases le_or_lt 5000000 b with h5b | h5b
      · rw [curve_high b h5b, heqa, hsa, Option.getD_some]
        exact (scurve_bounds a sa hsa).1
      · obtain ⟨heqb, hsomeb⟩ := curve_mid b (by omega) h5b
        obtain ⟨sb, hsb⟩ := Option.isSome_iff_exists.mp hsomeb
        rw [heqa, heqb, hsa, hsb, Option.getD_some, Option.getD_some]
        exact scurve_anti a b sa sb (le_of_lt hab) hsa hsb

theorem curve_score_range (w : Int) :
    0 ≤ calculate_obscurity_from_watches w ∧ calculate_obscurity_from_watches w ≤ 100 := by
  rcases le_or_lt w 0 with h0 | h0
  · rw [curve_nonpos w h0]; norm_num
  · rcases le_or_lt 5000000 w with h5 | h5
    · rw [curve_high w h5]; norm_num
    · rcases le_or_lt w 1000 with h1 | h1
      · rw [curve_low w h0 h1]; norm_num
      · obtain ⟨heq, hsome⟩ := curve_mid w h1 h5
        obtain ⟨s, hs⟩ := Option.isSome_iff_exists.mp hsome
        rw [heq, hs, Option.getD_some]
        have := scurve_bounds w s hs
        constructor <;> linarith [this.1, this.2]

/-- C7: `calculate_obscurity_from_watches` (the spec's `curve_score`) is
antitone — for all integers `0 < a < b` the score at `b` is at most the
score at `a` — and for every integer `w ≥ 0` the score lies in
`[0, 100]`. -/
theorem obscurity_curve_monotone_bounded :
    (∀ a b : Int, 0 < a → a < b →
        calculate_obscurity_from_watches b ≤ calculate_obscurity_from_watches a) ∧
    (∀ w : Int, 0 ≤ w →
        0 ≤ calculate_obscurity_from_watches w ∧
          calculate_obscurity_from_watches w ≤ 100) :=
  ⟨curve_score_monotone, fun w _ => curve_score_range w⟩

/-- Witness for C7 at the concrete inputs `700000 < 800000` and `w = 42`. -/
theorem obscurity_curve_monotone_bounded_witness :
    calculate_obscurity_from_watches 800000 ≤ calculate_obscurity_from_watches 700000 ∧
    (0 ≤ calculate_obscurity_from_watches 42 ∧ calculate_obscurity_from_watches 42 ≤ 100) :=
  ⟨obscurity_curve_monotone_bounded.1 700000 800000 (by norm_num) (by norm_num),
   obscurity_curve_monotone_bounded.2 42 (by norm_num)⟩

/-- C8: the curve clamps at both table ends (`10,000,000 ↦ 5`,
`500 ↦ 99`) and interpolates linearly in between
(`4,250,000 ↦ 7.5`, the midpoint of the `5,000,000 ↦ 5` /
`3,500,000 ↦ 10` bracket). -/
theorem curve_clamp_and_interpolation :
    calculate_obscurity_from_watches 10000000 = 5 ∧
    calculate_obscurity_from_watches 500 = 99 ∧
    calculate_obscurity_from_watches 4250000 = 15 / 2 := by
  refine ⟨by decide, by decide, ?_⟩
  norm_num [calculate_obscurity_from_watches, curveLoop, SCORE_CURVE]

/-- C10: the trailing `return 50.0` of `calculate_obscurity_from_watches`
is unreachable — non-positive watches give 100, and for every watch count
strictly between the lowest threshold (1000) and the highest (5,000,000)
the bracket-search loop finds an interpolating pair, whose value the
function returns. -/
theorem curve_default_unreachable :
    (∀ w : Int, w ≤ 0 → calculate_obscurity_from_watches w = 100) ∧
    (∀ w : Int, 1000 < w → w < 5000000 →
      ∃ s, curveLoop SCORE_CURVE w = some s ∧
        calculate_obscurity_from_watches w = s) := by
  refine ⟨curve_nonpos, fun w h1 h2 => ?_⟩
  obtain ⟨heq, hsome⟩ := curve_mid w h1 h2
  obtain ⟨s, hs⟩ := Option.isSome_iff_exists.mp hsome
  exact ⟨s, hs, by rw [heq, hs, Option.getD_some]⟩

/-- Witness for C10 at the concrete inputs `w = -5` and `w = 2000`. -/
theorem curve_default_unreachable_witness :
    calculate_obscurity_from_watches (-5) = 100 ∧
    (curveLoop SCORE_CURVE 2000).isSome = true := by
  constructor
  · exact curve_default_unreachable.1 (-5) (by norm_num)
  · obtain ⟨s, hs, heq⟩ := curve_default_unreachable.2 2000 (by norm_num) (by norm_num)
    rw [hs]; rfl

/-! ### The aggregate score calculator (claims C1, C2, C4) -/

/-- Branch characterization of `calculate_obscurity_score`: empty input
gives `(50, 0)`; at least three truthy watch counts gives the primary
median path; otherwise the fallback path over per-film scores (whose
guard `film_scores ≠ []` always holds for non-empty input). -/
theorem calculate_obscurity_score_eq (fpow : Rat → Rat → Rat) (films : List Film) :
    calculate_obscurity_score fpow films =
      if films = [] then (50, some 0)
      else if truthyWatchCounts films ≠ [] ∧ 3 ≤ (truthyWatchCounts films).length then
        (max 0 (min 100 (calculate_obscurity_from_watches (pyMedianInt (truthyWatchCounts films)) +
          calculate_diversity_bonus films)),
         some (pyMedianInt (truthyWatchCounts films)))
      else
        (max 0 (min 100 ((List.insertionSort (fun a b : Rat => a ≤ b) (filmScores fpow films)).getD
            ((List.insertionSort (fun a b : Rat => a ≤ b) (filmScores fpow films)).length / 2) 0 +
          calculate_diversity_bonus films)),
         some 0) := by
  unfold calculate_obscurity_score
  dsimp only
  by_cases hne : films = []
  · rw [if_pos hne, if_pos hne]
  · rw [if_neg hne, if_neg hne]
    by_cases hc : truthyWatchCounts films ≠ [] ∧ 3 ≤ (truthyWatchCounts films).length
    · rw [if_pos hc, if_pos hc]
    · rw [if_neg hc, if_neg hc]
      have hfs : filmScores fpow films ≠ [] := by
        unfold filmScores
        intro h0
        exact hne (List.map_eq_nil_iff.mp h0)
      rw [if_pos hfs]

/-- C1 counterexample: on `exC1` the spec's median over all present
watch counts (zeros included) is 2500500, but the code filters the zero
out and returns median component 5000000. -/
theorem aggregate_zero_watch_counterexample :
    (specPresentWatchCounts exC1).length = 4 ∧
    specMedianInt (specPresentWatchCounts exC1) = 2500500 ∧
    (calculate_obscurity_score pow0 exC1).2 = some 5000000 ∧
    (calculate_obscurity_score pow0 exC1).2 ≠
      some (specMedianInt (specPresentWatchCounts exC1)) := by
  decide

/-- C1 amended: the aggregate median is computed over the truthy watch
counts — present, non-null and nonzero — and whenever at least three such
values exist the primary path returns the spec-formula median of that
filtered list (zeros and absent values both excluded, also from the
threshold count). -/
theorem aggregate_median_truthy_watches (fpow : Rat → Rat → Rat) (films : List Film)
    (h : 3 ≤ (truthyWatchCounts films).length) :
    calculate_obscurity_score fpow films =
      (max 0 (min 100 (calculate_obscurity_from_watches (specMedianInt (truthyWatchCounts films)) +
        calculate_diversity_bonus films)),
       some (specMedianInt (truthyWatchCounts films))) := by
  have hnil : truthyWatchCounts films ≠ [] := by
    intro h0
    rw [h0] at h
    simp at h
  have hne : films ≠ [] := by
    intro h0
    rw [h0] at hnil
    exact hnil rfl
  rw [calculate_obscurity_score_eq, if_neg hne, if_pos ⟨hnil, h⟩]
  rfl

/-- Witness for the amended C1 on three films with watch counts 1, 2, 3:
median 2, curve value 99 (low clamp), bonus 0. -/
theorem aggregate_median_truthy_watches_witness :
    calculate_obscurity_score pow0 exW1 = (99, some 2) := by
  rw [aggregate_median_truthy_watches pow0 exW1 (by decide)]
  norm_num [specMedianInt, truthyWatchCounts, exW1, filmW, List.insertionSort,
    List.orderedInsert, List.getD, List.get?, calculate_obscurity_from_watches,
    SCORE_CURVE, calculate_diversity_bonus]

/-- C2 counterexample: on the empty film list the median component of the
aggregate result is the number 0, not null. -/
theorem aggregate_empty_median_not_null :
    (calculate_obscurity_score pow0 []).2 = some 0 ∧
    (calculate_obscurity_score pow0 []).2 ≠ none := by
  decide

/-- C2 amended: the empty film list returns `(50, 0)` with median
component the number 0 (not null), and every run that misses the
at-least-3-truthy-watch-counts threshold likewise reports median
component 0, never null. -/
theorem aggregate_empty_and_fallback_zero (fpow : Rat → Rat → Rat) (films : List Film)
    (h : (truthyWatchCounts films).length < 3) :
    calculate_obscurity_score fpow [] = (50, some 0) ∧
    (calculate_obscurity_score fpow films).2 = some 0 := by
  refine ⟨rfl, ?_⟩
  rw [calculate_obscurity_score_eq]
  by_cases hne : films = []
  · rw [if_pos hne]
  · rw [if_neg hne, if_neg (fun hc => absurd hc.2 (by omega))]

/-- Witness for the amended C2 at the concrete list `exC4` (one truthy
watch count). -/
theorem aggregate_empty_and_fallback_zero_witness :
    calculate_obscurity_score pow0 [] = (50, some 0) ∧
    (calculate_obscurity_score pow0 exC4).2 = some 0 :=
  aggregate_empty_and_fallback_zero pow0 exC4 (by decide)

/-- C4 counterexample: on `exC4` the fallback per-film scores are
`[45, 100]`; the spec's even-count median (floor of the average of the
two middles) is 72, but the code returns 100 — the upper middle — so the
claimed formula does not hold. -/
theorem fallback_even_median_counterexample :
    filmScores pow0 exC4 = [45, 100] ∧
    specMedianScores (filmScores pow0 exC4) = 72 ∧
    (calculate_obscurity_score pow0 exC4).1 = 100 ∧
    (calculate_obscurity_score pow0 exC4).1 ≠
      max 0 (min 100 (specMedianScores (filmScores pow0 exC4) + calculate_diversity_bonus exC4)) := by
  have hbonus : calculate_diversity_bonus exC4 = 0 := by
    norm_num [calculate_diversity_bonus, exC4, filmW, emptyFilm]
  have hscores : filmScores pow0 exC4 = [45, 100] := by
    norm_num [filmScores, exC4, filmW, emptyFilm, get_film_obscurity,
      get_film_obscurity_secondary, posterTruthy, calculate_obscurity_from_watches,
      curveLoop, SCORE_CURVE]
  have hfloor : ⌊((45 : ℚ) + 100) / 2⌋ = (72 : ℤ) := by
    rw [Int.floor_eq_iff]
    constructor <;> norm_num
  have hmed : specMedianScores (filmScores pow0 exC4) = 72 := by
    rw [hscores]
    norm_num [specMedianScores, List.insertionSort, List.orderedInsert,
      List.getD, List.get?, hfloor]
  have hscore : (calculate_obscurity_score pow0 exC4).1 = 100 := by
    rw [calculate_obscurity_score_eq]
    rw [if_neg (by decide : ¬ exC4 = [])]
    rw [if_neg (by decide : ¬ (truthyWatchCounts exC4 ≠ [] ∧ 3 ≤ (truthyWatchCounts exC4).length))]
    rw [hscores, hbonus]
    norm_num [List.insertionSort, List.orderedInsert, List.getD, List.get?]
  refine ⟨hscores, hmed, hscore, ?_⟩
  rw [hscore, hmed, hbonus]
  norm_num

/-- C4 amended: on the fallback path (fewer than three truthy watch
counts, non-empty input) the code takes the element at index
`n / 2` of the ascending-sorted per-film score list — the upper of the
two middles for an even count, with no averaging — adds the diversity
bonus, clamps, and reports median watch count 0. -/
theorem aggregate_fallback_upper_median (fpow : Rat → Rat → Rat) (films : List Film)
    (hne : films ≠ []) (h : (truthyWatchCounts films).length < 3) :
    calculate_obscurity_score fpow films =
      (max 0 (min 100 ((List.insertionSort (fun a b : Rat => a ≤ b) (filmScores fpow films)).getD
          ((List.insertionSort (fun a b : Rat => a ≤ b) (filmScores fpow films)).length / 2) 0 +
        calculate_diversity_bonus films)),
       some 0) := by
  rw [calculate_obscurity_score_eq, if_neg hne, if_neg (fun hc => absurd hc.2 (by omega))]

/-- Witness for the amended C4 at the concrete list `exC4`. -/
theorem aggregate_fallback_upper_median_witness :
    calculate_obscurity_score pow0 exC4 = (100, some 0) := by
  rw [aggregate_fallback_upper_median pow0 exC4 (by decide) (by decide)]
  have hscores : filmScores pow0 exC4 = [45, 100] := by
    norm_num [filmScores, exC4, filmW, emptyFilm, get_film_obscurity,
      get_film_obscurity_secondary, posterTruthy, calculate_obscurity_from_watches,
      curveLoop, SCORE_CURVE]
  have hbonus : calculate_diversity_bonus exC4 = 0 := by
    norm_num [calculate_diversity_bonus, exC4, filmW, emptyFilm]
  rw [hscores, hbonus]
  norm_num [List.insertionSort, List.orderedInsert, List.getD, List.get?]

/-! ### The per-film resolver (claim C6) and report-level claims (C3, C5) -/

/-- C6: the head of the decision chain of `get_film_obscurity` — a present
watch count `> 0` returns the curve score with the primary tag
(`letterboxd`, the spec's `primary_watchcount`); a present watch count
`== 0` returns the fixed score 100 with the primary tag; a negative watch
count is treated exactly like an absent one, falling through to the
secondary-signal chain instead of raising. -/
theorem film_obscurity_watch_rules (fpow : Rat → Rat → Rat) (film : Film) (w : Int)
    (hw : film.letterboxd_watches = some w) :
    (0 < w → get_film_obscurity fpow film =
      (calculate_obscurity_from_watches w, "letterboxd")) ∧
    (w = 0 → get_film_obscurity fpow film = (100, "letterboxd")) ∧
    (w < 0 → get_film_obscurity fpow film =
      get_film_obscurity fpow { film with letterboxd_watches := none }) := by
  refine ⟨fun h => ?_, fun h => ?_, fun h => ?_⟩
  · simp only [get_film_obscurity, hw]
    rw [if_neg (by omega : ¬ w = 0), if_pos h]
  · simp only [get_film_obscurity, hw]
    rw [if_pos h]
  · simp only [get_film_obscurity, hw]
    rw [if_neg (by omega : ¬ w = 0), if_neg (by omega : ¬ 0 < w)]
    simp only [get_film_obscurity_secondary, posterTruthy]

/-- Witness for C6 at watch counts 500, 0 and -7. -/
theorem film_obscurity_watch_rules_witness :
    get_film_obscurity pow0 (filmW 500) = (calculate_obscurity_from_watches 500, "letterboxd") ∧
    get_film_obscurity pow0 (filmW 0) = (100, "letterboxd") ∧
    get_film_obscurity pow0 (filmW (-7)) =
      get_film_obscurity pow0 { filmW (-7) with letterboxd_watches := none } :=
  ⟨(film_obscurity_watch_rules pow0 (filmW 500) 500 rfl).1 (by norm_num),
   (film_obscurity_watch_rules pow0 (filmW 0) 0 rfl).2.1 rfl,
   (film_obscurity_watch_rules pow0 (filmW (-7)) (-7) rfl).2.2 (by norm_num)⟩

/-- C5 counterexample: a single film whose `user_rating` is present and
equal to 0 — the report's `average_rating` is null even though a rating
is present, because the source guards the rounding with the truthiness
of the mean. -/
theorem report_average_rating_zero_counterexample :
    ([filmR 0] : List Film).filterMap (fun f => f.user_rating) = [0] ∧
    (calculate_obscurity_stats pow0 [filmR 0] "alice").average_rating = none := by
  constructor
  · rfl
  · unfold calculate_obscurity_stats
    rw [if_neg (by decide : ¬ ([filmR 0] : List Film) = [])]
    dsimp only
    norm_num [filmR, List.filterMap]

/-- C5 amended: the reported average rating is the mean of the present
`user_rating` values rounded to 2 decimals whenever at least one rating
is present AND the mean is nonzero; it is null when no rating is present
OR when the mean equals 0 (Python truthiness of the mean). -/
theorem report_average_rating_truthy (fpow : Rat → Rat → Rat) (films : List Film)
    (username : String) :
    (calculate_obscurity_stats fpow films username).average_rating =
      (if films.filterMap (fun f => f.user_rating) = [] then none
       else if (films.filterMap (fun f => f.user_rating)).sum /
           ((films.filterMap (fun f => f.user_rating)).length : Rat) = 0 then none
       else some (pyRound ((films.filterMap (fun f => f.user_rating)).sum /
           ((films.filterMap (fun f => f.user_rating)).length : Rat)) 2)) := by
  by_cases hne : films = []
  · subst hne
    rfl
  · unfold calculate_obscurity_stats
    rw [if_neg hne]
    dsimp only
    by_cases hr : films.filterMap (fun f => f.user_rating) = []
    · rw [if_neg (fun hc => hc hr), if_pos hr]
    · rw [if_pos hr, if_neg hr]
      dsimp only
      by_cases hz : (films.filterMap (fun f => f.user_rating)).sum /
          ((films.filterMap (fun f => f.user_rating)).length : Rat) = 0
      · rw [if_neg (fun h2 => h2 hz), if_pos hz]
      · rw [if_pos hz, if_neg hz]

/-- C3 evaluation at the failing input: on the empty film list every
report field carries its identity value — except `films_by_decade`,
whose key is absent from the returned dict (modelled as `none`), while
the claim (and the required `films_by_decade` field of the
`AnalyzeResponse` model in `backend/main.py`) expects it present and
empty. -/
theorem empty_report_missing_films_by_decade :
    (calculate_obscurity_stats pow0 [] "alice").obscurity_score = 0 ∧
    (calculate_obscurity_stats pow0 [] "alice").total_films = 0 ∧
    (calculate_obscurity_stats pow0 [] "alice").average_rating = none ∧
    (calculate_obscurity_stats pow0 [] "alice").median_watches = none ∧
    (calculate_obscurity_stats pow0 [] "alice").top_genres = [] ∧
    (calculate_obscurity_stats pow0 [] "alice").decade_breakdown = [] ∧
    (calculate_obscurity_stats pow0 [] "alice").country_breakdown = [] ∧
    (calculate_obscurity_stats pow0 [] "alice").most_obscure_films = [] ∧
    (calculate_obscurity_stats pow0 [] "alice").most_mainstream_films = [] ∧
    (calculate_obscurity_stats pow0 [] "alice").director_counts = [] ∧
    (calculate_obscurity_stats pow0 [] "alice").rating_distribution = [] ∧
    (calculate_obscurity_stats pow0 [] "alice").mood_analysis = [] ∧
    (calculate_obscurity_stats pow0 [] "alice").films_by_decade = none := by
  refine ⟨rfl, rfl, rfl, rfl, rfl, rfl, rfl, rfl, rfl, rfl, rfl, rfl, rfl⟩

/-! ### The mood analysis (claim C9) -/

theorem moodInner_snd (g : String) (l : List (String × List String))
    (acc : (String → Nat) × Nat) :
    (l.foldl (fun (acc2 : (String → Nat) × Nat) (p : String × List String) =>
      if g ∈ p.2 then
        (fun m => if m = p.1 then acc2.1 m + 1 else acc2.1 m, acc2.2 + 1)
      else acc2) acc).2 = acc.2 + (l.filter (fun p => decide (g ∈ p.2))).length := by
  induction l generalizing acc with
  | nil => simp
  | cons p l ih =>
    rw [List.foldl_cons, List.filter_cons]
    by_cases hg : g ∈ p.2
    · rw [if_pos hg, ih]
      simp [hg]
      omega
    · rw [if_neg hg, ih]
      simp [hg]

theorem moodInner_fst (g m : String) (l : List (String × List String))
    (acc : (String → Nat) × Nat) :
    (l.foldl (fun (acc2 : (String → Nat) × Nat) (p : String × List String) =>
      if g ∈ p.2 then
        (fun m2 => if m2 = p.1 then acc2.1 m2 + 1 else acc2.1 m2, acc2.2 + 1)
      else acc2) acc).1 m =
      acc.1 m + (l.filter (fun p => decide (g ∈ p.2 ∧ p.1 = m))).length := by
  induction l generalizing acc with
  | nil => simp
  | cons p l ih =>
    rw [List.foldl_cons, List.filter_cons]
    by_cases hg : g ∈ p.2
    · rw [if_pos hg, ih]
      by_cases hm : p.1 = m
      · simp [hg, hm]
        omega
      · have hm2 : ¬ m = p.1 := fun h => hm h.symm
        simp [hg, hm, hm2]
    · rw [if_neg hg, ih]
      simp [hg]

theorem moodGenres_snd (gs : List String) (acc : (String → Nat) × Nat) :
    (gs.foldl moodGenreStep acc).2 = acc.2 + (gs.map moodMatches).sum := by
  induction gs generalizing acc with
  | nil => simp
  | cons g gs ih =>
    rw [List.foldl_cons, ih]
    rw [show (moodGenreStep acc g).2 = acc.2 + moodMatches g from
      moodInner_snd g mood_mapping acc]
    rw [List.map_cons, List.sum_cons]
    omega

theorem moodGenres_fst (m : String) (gs : List String) (acc : (String → Nat) × Nat) :
    (gs.foldl moodGenreStep acc).1 m = acc.1 m +
      (gs.map (fun g =>
        (mood_mapping.filter (fun p => decide (g ∈ p.2 ∧ p.1 = m))).length)).sum := by
  induction gs generalizing acc with
  | nil => simp
  | cons g gs ih =>
    rw [List.foldl_cons, ih]
    rw [show (moodGenreStep acc g).1 m = acc.1 m +
      (mood_mapping.filter (fun p => decide (g ∈ p.2 ∧ p.1 = m))).length from
      moodInner_fst g m mood_mapping acc]
    rw [List.map_cons, List.sum_cons]
    omega

theorem moodLoop_eq_flat (films : List Film) :
    moodLoop films = (films.flatMap (fun f => f.genres)).foldl moodGenreStep (fun _ => 0, 0) := by
  have h : ∀ (fs : List Film) (acc : (String → Nat) × Nat),
      fs.foldl (fun acc f => f.genres.foldl moodGenreStep acc) acc =
        (fs.flatMap (fun f => f.genres)).foldl moodGenreStep acc := by
    intro fs
    induction fs with
    | nil => intro acc; simp
    | cons f fs ih =>
      intro acc
      rw [List.foldl_cons, List.flatMap_cons, List.foldl_append, ih]
  unfold moodLoop
  exact h films (fun _ => 0, 0)

theorem sum_map_indicator (gs : List String) (q : String → Bool) :
    (gs.map (fun g => if q g = true then 1 else 0)).sum = (gs.filter q).length := by
  induction gs with
  | nil => rfl
  | cons g gs ih =>
    rw [List.map_cons, List.sum_cons, List.filter_cons]
    by_cases hq : q g = true
    · simp [hq, ih]
      omega
    · simp [hq, ih]

theorem mood_filter_dark (g : String) :
    (mood_mapping.filter (fun p => decide (g ∈ p.2 ∧ p.1 = "Dark & Intense"))).length =
      if decide (g ∈ ["Horror", "Thriller", "Crime", "War", "Mystery"]) = true then 1 else 0 := by
  by_cases hg : g ∈ ["Horror", "Thriller", "Crime", "War", "Mystery"]
  · simp [mood_mapping, List.filter_cons, hg]
  · simp [mood_mapping, List.filter_cons, hg]

theorem mood_filter_fun (g : String) :
    (mood_mapping.filter (fun p => decide (g ∈ p.2 ∧ p.1 = "Fun & Light"))).length =
      if decide (g ∈ ["Comedy", "Animation", "Family", "Music"]) = true then 1 else 0 := by
  by_cases hg : g ∈ ["Comedy", "Animation", "Family", "Music"]
  · simp [mood_mapping, List.filter_cons, hg]
  · simp [mood_mapping, List.filter_cons, hg]

theorem mood_filter_emotional (g : String) :
    (mood_mapping.filter (fun p => decide (g ∈ p.2 ∧ p.1 = "Emotional & Deep"))).length =
      if decide (g ∈ ["Drama", "Romance", "History"]) = true then 1 else 0 := by
  by_cases hg : g ∈ ["Drama", "Romance", "History"]
  · simp [mood_mapping, List.filter_cons, hg]
  · simp [mood_mapping, List.filter_cons, hg]

theorem mood_filter_adventurous (g : String) :
    (mood_mapping.filter (fun p => decide (g ∈ p.2 ∧ p.1 = "Adventurous"))).length =
      if decide (g ∈ ["Action", "Adventure", "Science Fiction", "Fantasy", "Western"]) = true
      then 1 else 0 := by
  by_cases hg : g ∈ ["Action", "Adventure", "Science Fiction", "Fantasy", "Western"]
  · simp [mood_mapping, List.filter_cons, hg]
  · simp [mood_mapping, List.filter_cons, hg]

theorem mood_filter_thought (g : String) :
    (mood_mapping.filter (fun p => decide (g ∈ p.2 ∧ p.1 = "Thought-Provoking"))).length =
      if decide (g ∈ ["Documentary", "Mystery", "Science Fiction"]) = true then 1 else 0 := by
  by_cases hg : g ∈ ["Documentary", "Mystery", "Science Fiction"]
  · simp [mood_mapping, List.filter_cons, hg]
  · simp [mood_mapping, List.filter_cons, hg]

theorem moodLoop_counts (films : List Film) :
    (moodLoop films).2 = moodTotal films ∧
    ∀ p ∈ mood_mapping, (moodLoop films).1 p.1 = moodPairCount films p.2 := by
  constructor
  · rw [moodLoop_eq_flat, moodGenres_snd]
    simp [moodTotal]
  · intro p hp
    have hp2 : p = ("Dark & Intense", ["Horror", "Thriller", "Crime", "War", "Mystery"]) ∨
        p = ("Fun & Light", ["Comedy", "Animation", "Family", "Music"]) ∨
        p = ("Emotional & Deep", ["Drama", "Romance", "History"]) ∨
        p = ("Adventurous", ["Action", "Adventure", "Science Fiction", "Fantasy", "Western"]) ∨
        p = ("Thought-Provoking", ["Documentary", "Mystery", "Science Fiction"]) := by
      simpa [mood_mapping] using hp
    rcases hp2 with rfl | rfl | rfl | rfl | rfl
    · rw [moodLoop_eq_flat, moodGenres_fst]
      dsimp only
      rw [List.map_congr_left (fun g _ => mood_filter_dark g), sum_map_indicator]
      simp [moodPairCount]
    · rw [moodLoop_eq_flat, moodGenres_fst]
      dsimp only
      rw [List.map_congr_left (fun g _ => mood_filter_fun g), sum_map_indicator]
      simp [moodPairCount]
    · rw [moodLoop_eq_flat, moodGenres_fst]
      dsimp only
      rw [List.map_congr_left (fun g _ => mood_filter_emotional g), sum_map_indicator]
      simp [moodPairCount]
    · rw [moodLoop_eq_flat, moodGenres_fst]
      dsimp only
      rw [List.map_congr_left (fun g _ => mood_filter_adventurous g), sum_map_indicator]
      simp [moodPairCount]
    · rw [moodLoop_eq_flat, moodGenres_fst]
      dsimp only
      rw [List.map_congr_left (fun g _ => mood_filter_thought g), sum_map_indicator]
      simp [moodPairCount]

/-- C9: for every (film, genre) pair each mood containing the genre gets
one increment and the global total gets one increment per matching mood
(so Mystery and Science Fiction, each in two moods, add 2 to the total);
the reported percentage of each mood is `count / total * 100` rounded to
1 decimal, and when the total is 0 every mood reports 0. -/
theorem mood_analysis_counts (films : List Film) :
    calculate_mood_analysis films =
      (if 0 < moodTotal films then
        mood_mapping.map (fun p =>
          (p.1, pyRound ((moodPairCount films p.2 : Rat) / (moodTotal films : Rat) * 100) 1))
      else mood_mapping.map (fun p => (p.1, 0))) ∧
    moodMatches "Mystery" = 2 ∧ moodMatches "Science Fiction" = 2 := by
  refine ⟨?_, by decide, by decide⟩
  obtain ⟨htot, hcnt⟩ := moodLoop_counts films
  unfold calculate_mood_analysis
  dsimp only
  rw [htot]
  by_cases h0 : 0 < moodTotal films
  · rw [if_pos h0, if_pos h0]
    apply List.map_congr_left
    intro p hp
    rw [hcnt p hp]
  · rw [if_neg h0, if_neg h0]
